import Mathlib

/-!
# Verification of the DataForge-Compute UDF execution engine

A shallow embedding of the compute core of `src-tauri/src/compute/` and proofs
about it.  Numeric values (`f64` in the source) are modelled as rationals `ℚ`;
external library functions that the core merely calls — `Sha256` hashing,
`Uuid::parse_str` and `f64::sqrt` — are threaded through as function
parameters.  `HashMap`s are modelled as association lists (`List.lookup`
returns the first binding, matching overwrite-on-insert lookup semantics),
`Arc<Vec<f64>>` sharing is modelled by tagging each depth array with a pointer
identity, and the blob store is a map from paths to byte strings.  Timestamps
(`Utc::now()`) are abstract `Nat` parameters.  The atomic cancellation token
and progress state are concurrency primitives not consulted by any of the
verified paths, so they are left out of the functional state.
-/

namespace DataForge

/-- Uuid from the `uuid` crate, modelled as an opaquely numbered identity. -/
structure Uuid where
  val : Nat
deriving DecidableEq

/-- `Uuid::to_string`; the model renders the numeric identity (injective). -/
def uuidToString (u : Uuid) : String :=
  toString u.val

/-- `CurveDataType` from `types.rs`: curve data type classification. -/
inductive CurveDataType
  | GammaRay
  | Density
  | NeutronPorosity
  | Resistivity
  | Caliper
  | Sonic
  | SpontaneousPotential
  | PhotoelectricFactor
  | Depth
  | Computed
  | Unknown
deriving DecidableEq

/-- `CurveDataType::display_name` from `types.rs`. -/
def CurveDataType.displayName : CurveDataType → String
  | .GammaRay => "Gamma Ray"
  | .Density => "Bulk Density"
  | .NeutronPorosity => "Neutron Porosity"
  | .Resistivity => "Resistivity"
  | .Caliper => "Caliper"
  | .Sonic => "Sonic"
  | .SpontaneousPotential => "Spontaneous Potential"
  | .PhotoelectricFactor => "Photo-electric Factor"
  | .Depth => "Depth"
  | .Computed => "Computed"
  | .Unknown => "Unknown"

/-- `Arc<Vec<f64>>` holding depth values: `ptrId` models the allocation
identity compared by `Arc::ptr_eq`, `data` the stored values. -/
structure SharedDepths where
  ptrId : Nat
  data : List ℚ
deriving DecidableEq

/-- `CurveData` from `types.rs` (immutable loaded curve). -/
structure CurveData where
  curve_id : Uuid
  mnemonic : String
  curve_type : CurveDataType
  unit : String
  depths : SharedDepths
  values : List (Option ℚ)
  parquet_hash : String
  version : Int

/-- `CurveData::len`: the number of samples (length of `values`). -/
def CurveData.len (c : CurveData) : Nat :=
  c.values.length

/-- `InputReference` from `types.rs`. -/
structure InputReference where
  curve_id : Uuid
  version : Int
  parquet_hash : String
deriving DecidableEq

/-- `ExecutionStatus` from `types.rs`. -/
inductive ExecutionStatus
  | Completed
  | Failed
  | Cancelled
deriving DecidableEq

/-- `ParameterValue` from `parameters.rs` (the `String` variant is named
`text` here because `String` is taken in Lean). -/
inductive ParameterValue
  | curve (id : Uuid)
  | number (n : ℚ)
  | integer (i : Int)
  | text (s : String)
  | boolean (b : Bool)
  | null
deriving DecidableEq

/-- `ParameterValue::as_curve`; `parseUuid` models `Uuid::parse_str`. -/
def ParameterValue.asCurve (parseUuid : String → Option Uuid) :
    ParameterValue → Option Uuid
  | .curve id => some id
  | .text s => parseUuid s
  | _ => none

/-- `ParameterValue::as_f64` (`i64 as f64` is exact in the rational model). -/
def ParameterValue.asF64 : ParameterValue → Option ℚ
  | .number n => some n
  | .integer i => some (i : ℚ)
  | _ => none

/-- `ParameterValue::is_null`. -/
def ParameterValue.isNull : ParameterValue → Bool
  | .null => true
  | _ => false

/-- `ExecutionRecord` from `types.rs`; the serialized JSON parameter snapshot
is kept as the parameter map itself, timestamps are abstract `Nat`s. -/
structure ExecutionRecord where
  id : Uuid
  udf_id : String
  udf_version : String
  inputs : List InputReference
  parameters : List (String × ParameterValue)
  output_curve_id : Option Uuid
  output_parquet_hash : Option String
  started_at : Nat
  completed_at : Option Nat
  compute_app_version : String
  status : ExecutionStatus
  error_message : Option String

/-- `OutputCurveData` from `types.rs`. -/
structure OutputCurveData where
  mnemonic : String
  curve_type : CurveDataType
  unit : String
  depths : List ℚ
  values : List (Option ℚ)
  description : Option String

/-- `UdfMetadata` from `types.rs`. -/
structure UdfMetadata where
  name : String
  category : String
  description : String
  documentation : Option String
  version : String
  tags : List String

/-- `UdfOutput` from `types.rs`; `serde_json::Value` metadata entries are
modelled as rendered strings (no claim inspects them). -/
structure UdfOutput where
  curve_data : OutputCurveData
  metadata : List (String × String)
  warnings : List String

/-- `UdfOutput::new`. -/
def UdfOutput.new (curve_data : OutputCurveData) : UdfOutput :=
  { curve_data := curve_data, metadata := [], warnings := [] }

/-- `UdfOutput::add_warning`. -/
def UdfOutput.addWarning (o : UdfOutput) (warning : String) : UdfOutput :=
  { o with warnings := o.warnings ++ [warning] }

/-- `UdfOutput::add_metadata` (`HashMap::insert`: newest binding wins). -/
def UdfOutput.addMetadata (o : UdfOutput) (key value : String) : UdfOutput :=
  { o with metadata := (key, value) :: o.metadata }

/-- `UdfError` from `error.rs`; each variant keeps its formatted payload
string (the `IoError` source error is rendered). -/
inductive UdfError
  | ProviderNotAvailable (msg : String)
  | UdfNotFound (id : String)
  | ParameterValidation (msg : String)
  | CurveTypeMismatch (expected actual : String)
  | MissingCurve (name : String)
  | CurveLoadError (msg : String)
  | ExecutionFailed (msg : String)
  | PreCheckFailed (msg : String)
  | PostProcessFailed (msg : String)
  | DatabaseError (msg : String)
  | IoError (msg : String)
  | SerializationError (msg : String)
  | IncompatibleData (msg : String)
  | NumericError (msg : String)
deriving DecidableEq

/-- The `thiserror`-derived `Display` for `UdfError` (used for
`e.to_string()` when the engine records a failure). -/
def UdfError.toMessage : UdfError → String
  | .ProviderNotAvailable m => "Provider not available: " ++ m
  | .UdfNotFound m => "UDF not found: " ++ m
  | .ParameterValidation m => "Parameter validation failed: " ++ m
  | .CurveTypeMismatch e a => s!"Curve type mismatch: expected {e}, got {a}"
  | .MissingCurve m => "Required curve not provided: " ++ m
  | .CurveLoadError m => "Failed to load curve data: " ++ m
  | .ExecutionFailed m => "Execution failed: " ++ m
  | .PreCheckFailed m => "Pre-execution check failed: " ++ m
  | .PostProcessFailed m => "Post-processing failed: " ++ m
  | .DatabaseError m => "Database error: " ++ m
  | .IoError m => "I/O error: " ++ m
  | .SerializationError m => "Serialization error: " ++ m
  | .IncompatibleData m => "Incompatible curve data: " ++ m
  | .NumericError m => "Numeric error: " ++ m

/-- Recognizer for the `ProviderNotAvailable` variant. -/
def UdfError.isProviderNotAvailable : UdfError → Bool
  | .ProviderNotAvailable _ => true
  | _ => false

/-- `ValidationError` from `error.rs`. -/
structure ValidationError where
  field : String
  message : String
  suggestion : Option String
deriving DecidableEq

/-- `ValidationError::new`. -/
def ValidationError.new (field message : String) : ValidationError :=
  { field := field, message := message, suggestion := none }

/-- `ValidationError::with_suggestion`. -/
def ValidationError.withSuggestion (e : ValidationError) (s : String) :
    ValidationError :=
  { e with suggestion := some s }

/-- The `Display` impl for `ValidationError`. -/
def ValidationError.toMessage (e : ValidationError) : String :=
  match e.suggestion with
  | some s => s!"{e.field}: {e.message} (suggestion: {s})"
  | none => s!"{e.field}: {e.message}"

/-- `CurveParameter` from `parameters.rs`. -/
structure CurveParameter where
  name : String
  label : String
  description : String
  required : Bool
  allowed_types : List CurveDataType
  min_length : Option Nat
  allow_nulls : Bool

/-- `CurveParameter::required`. -/
def CurveParameter.mkRequired (name label : String) : CurveParameter :=
  { name := name, label := label, description := "", required := true,
    allowed_types := [], min_length := none, allow_nulls := true }

/-- `CurveParameter::with_allowed_types`. -/
def CurveParameter.withAllowedTypes (p : CurveParameter)
    (types : List CurveDataType) : CurveParameter :=
  { p with allowed_types := types }

/-- `CurveParameter::with_description`. -/
def CurveParameter.withDescription (p : CurveParameter) (d : String) :
    CurveParameter :=
  { p with description := d }

/-- `NumericParameter` from `parameters.rs`. -/
structure NumericParameter where
  name : String
  label : String
  description : String
  required : Bool
  default : Option ℚ
  min : Option ℚ
  max : Option ℚ
  unit : Option String

/-- `NumericParameter::required`. -/
def NumericParameter.mkRequired (name label : String) : NumericParameter :=
  { name := name, label := label, description := "", required := true,
    default := none, min := none, max := none, unit := none }

/-- `NumericParameter::optional`. -/
def NumericParameter.mkOptional (name label : String) (default : ℚ) :
    NumericParameter :=
  { name := name, label := label, description := "", required := false,
    default := some default, min := none, max := none, unit := none }

/-- `NumericParameter::with_description`. -/
def NumericParameter.withDescription (p : NumericParameter) (d : String) :
    NumericParameter :=
  { p with description := d }

/-- `NumericParameter::with_range`. -/
def NumericParameter.withRange (p : NumericParameter) (lo hi : ℚ) :
    NumericParameter :=
  { p with min := some lo, max := some hi }

/-- `NumericParameter::with_min`. -/
def NumericParameter.withMin (p : NumericParameter) (lo : ℚ) :
    NumericParameter :=
  { p with min := some lo }

/-- `NumericParameter::with_unit`. -/
def NumericParameter.withUnit (p : NumericParameter) (u : String) :
    NumericParameter :=
  { p with unit := some u }

/-- The two `ParameterDefinition` trait implementors that exist in the code
(`CurveParameter`, `NumericParameter`), as a closed tagged union. -/
inductive ParameterDefinition
  | curve (p : CurveParameter)
  | numeric (p : NumericParameter)

/-- `ParameterDefinition::name`. -/
def ParameterDefinition.name : ParameterDefinition → String
  | .curve p => p.name
  | .numeric p => p.name

/-- `ParameterDefinition::label`. -/
def ParameterDefinition.label : ParameterDefinition → String
  | .curve p => p.label
  | .numeric p => p.label

/-- `ParameterDefinition::is_required`. -/
def ParameterDefinition.isRequired : ParameterDefinition → Bool
  | .curve p => p.required
  | .numeric p => p.required

/-- `ParameterDefinition::default_value` (curves have no defaults). -/
def ParameterDefinition.defaultValue : ParameterDefinition → Option ParameterValue
  | .curve _ => none
  | .numeric p => p.default.map ParameterValue.number

/-- `ParameterDefinition::param_type`. -/
def ParameterDefinition.paramType : ParameterDefinition → String
  | .curve _ => "curve"
  | .numeric _ => "number"

/-- `CurveParameter::validate` (quotes in messages written as `\x27`). -/
def CurveParameter.validate (parseUuid : String → Option Uuid)
    (p : CurveParameter) (value : ParameterValue) :
    Except ValidationError Unit :=
  if value.isNull then
    if p.required then
      .error (ValidationError.new p.name "Required curve not provided")
    else
      .ok ()
  else if (value.asCurve parseUuid).isNone then
    .error (ValidationError.new p.name "Value must be a valid curve UUID")
  else
    .ok ()

/-- `NumericParameter::validate`. -/
def NumericParameter.validate (p : NumericParameter)
    (value : ParameterValue) : Except ValidationError Unit :=
  if value.isNull then
    if p.required && p.default.isNone then
      .error (ValidationError.new p.name "Required parameter not provided")
    else
      .ok ()
  else
    match value.asF64 with
    | none => .error (ValidationError.new p.name "Value must be a number")
    | some num =>
      match p.min with
      | some lo =>
        if num < lo then
          .error ((ValidationError.new p.name s!"Value must be >= {lo}").withSuggestion
            s!"Enter a value of {lo} or greater")
        else
          match p.max with
          | some hi =>
            if num > hi then
              .error ((ValidationError.new p.name s!"Value must be <= {hi}").withSuggestion
                s!"Enter a value of {hi} or less")
            else .ok ()
          | none => .ok ()
      | none =>
        match p.max with
        | some hi =>
          if num > hi then
            .error ((ValidationError.new p.name s!"Value must be <= {hi}").withSuggestion
              s!"Enter a value of {hi} or less")
          else .ok ()
        | none => .ok ()

/-- `ParameterDefinition::validate`, dispatching on the implementor. -/
def ParameterDefinition.validate (parseUuid : String → Option Uuid) :
    ParameterDefinition → ParameterValue → Except ValidationError Unit
  | .curve p, v => p.validate parseUuid v
  | .numeric p, v => p.validate v

/-- `ParameterValues` from `parameters.rs` (HashMap as association list;
`lookup` returns the most recent binding, like `HashMap::get`). -/
structure ParameterValues where
  values : List (String × ParameterValue)

/-- `ParameterValues::from_map`. -/
def ParameterValues.fromMap (values : List (String × ParameterValue)) :
    ParameterValues :=
  { values := values }

/-- `ParameterValues::get`. -/
def ParameterValues.get (ps : ParameterValues) (name : String) :
    Option ParameterValue :=
  ps.values.lookup name

/-- `ParameterValues::get_f64`. -/
def ParameterValues.getF64 (ps : ParameterValues) (name : String) : Option ℚ :=
  (ps.get name).bind ParameterValue.asF64

/-- `ParameterValues::get_f64_or`. -/
def ParameterValues.getF64Or (ps : ParameterValues) (name : String) (d : ℚ) : ℚ :=
  (ps.getF64 name).getD d

/-- `ExecutionContext` from `context.rs`.  The curve table is kept in
insertion order (the Rust `HashMap` iterates in an unspecified order; the
reference curve for depth validation is the first one iterated, modelled here
as the first one inserted).  Cancellation token and progress state are
omitted: they are atomics never consulted on the verified paths. -/
structure ExecutionContext where
  parameters : ParameterValues
  curves : List (String × CurveData)
  input_refs : List InputReference
  well_id : Uuid
  workspace_id : Uuid
  metadata : List (String × String)

/-- `ExecutionContext::new`. -/
def ExecutionContext.new (well_id workspace_id : Uuid)
    (parameters : ParameterValues) : ExecutionContext :=
  { parameters := parameters, curves := [], input_refs := [],
    well_id := well_id, workspace_id := workspace_id, metadata := [] }

/-- `ExecutionContext::add_curve`: records an `InputReference` for provenance
and binds the curve under the parameter name. -/
def ExecutionContext.addCurve (ctx : ExecutionContext) (param_name : String)
    (curve : CurveData) : ExecutionContext :=
  { ctx with
    input_refs := ctx.input_refs ++
      [{ curve_id := curve.curve_id, version := curve.version,
         parquet_hash := curve.parquet_hash }],
    curves := ctx.curves ++ [(param_name, curve)] }

/-- `ExecutionContext::get_curve`. -/
def ExecutionContext.getCurve (ctx : ExecutionContext) (param_name : String) :
    Option CurveData :=
  ctx.curves.lookup param_name

/-- `ExecutionContext::require_curve`. -/
def ExecutionContext.requireCurve (ctx : ExecutionContext)
    (param_name : String) : Except UdfError CurveData :=
  match ctx.getCurve param_name with
  | some c => .ok c
  | none => .error (.MissingCurve param_name)

/-- The absolute depth tolerance `1e-6` of
`ExecutionContext::validate_depth_compatibility`. -/
def depthTolerance : ℚ := 1e-6

/-- The `format!` message for a depth sample-count mismatch
(`"Curve '{}' has {} samples, expected {}"`; quotes written as `\x27`). -/
def lengthMismatchMsg (name : String) (got expected : Nat) : String :=
  s!"Curve \x27{name}\x27 has {got} samples, expected {expected}"

/-- The `format!` message for a pointwise depth mismatch
(`"Depth mismatch at index {} for curve '{}': {} vs {}"`). -/
def depthMismatchMsg (i : Nat) (name : String) (d1 d2 : ℚ) : String :=
  s!"Depth mismatch at index {i} for curve \x27{name}\x27: {d1} vs {d2}"

/-- The inner `for (i, (d1, d2)) in ref.iter().zip(curve).enumerate()` loop of
`validate_depth_compatibility`: first pair differing by more than `1e-6`
aborts with `IncompatibleData`. -/
def checkDepthsFrom (name : String) : Nat → List (ℚ × ℚ) → Except UdfError Unit
  | _, [] => .ok ()
  | i, (d1, d2) :: rest =>
    if abs (d1 - d2) > depthTolerance then
      .error (.IncompatibleData (depthMismatchMsg i name d1 d2))
    else
      checkDepthsFrom name (i + 1) rest

/-- The per-curve loop of `validate_depth_compatibility`, with the reference
depth array fixed to the first curve's. -/
def validateDepthsAgainst (refDepths : SharedDepths) :
    List (String × CurveData) → Except UdfError Unit
  | [] => .ok ()
  | (name, curve) :: rest =>
    if refDepths.ptrId = curve.depths.ptrId then
      validateDepthsAgainst refDepths rest
    else if refDepths.data.length ≠ curve.depths.data.length then
      .error (.IncompatibleData
        (lengthMismatchMsg name curve.depths.data.length refDepths.data.length))
    else
      match checkDepthsFrom name 0 (refDepths.data.zip curve.depths.data) with
      | .error e => .error e
      | .ok _ => validateDepthsAgainst refDepths rest

/-- `ExecutionContext::validate_depth_compatibility` from `context.rs`. -/
def ExecutionContext.validateDepthCompatibility (ctx : ExecutionContext) :
    Except UdfError Unit :=
  match ctx.curves with
  | [] => .ok ()
  | (_, first) :: rest => validateDepthsAgainst first.depths rest

/-- The `Udf` trait from `mod.rs` as a record of capabilities (`&mut` hooks
return the updated value). -/
structure Udf where
  id : String
  metadata : UdfMetadata
  parameter_definitions : List ParameterDefinition
  can_execute : ExecutionContext → Bool
  prepare : ExecutionContext → Except UdfError (ExecutionContext × Bool)
  execute : ExecutionContext → Except UdfError UdfOutput
  postprocess : UdfOutput → ExecutionContext → Except UdfError UdfOutput
  check_parameters : ExecutionContext → Except (List ValidationError) Unit

/-- The `UdfProvider` trait from `mod.rs` as a record of capabilities. -/
structure UdfProvider where
  id : String
  name : String
  version : String
  description : String
  load_udfs : List Udf
  is_available : Except UdfError Unit

/-- `UdfRegistry` from `registry.rs` (HashMaps as association lists; inserts
prepend so `lookup` sees the newest binding). -/
structure UdfRegistry where
  providers : List (String × UdfProvider)
  udfs : List (String × Udf)
  udf_providers : List (String × String)

/-- `UdfRegistry::new`. -/
def UdfRegistry.empty : UdfRegistry :=
  { providers := [], udfs := [], udf_providers := [] }

/-- The composite id `format!("{}:{}", provider_id, udf_id)`. -/
def compositeId (provider_id udf_id : String) : String :=
  provider_id ++ ":" ++ udf_id

/-- The duplicate-provider message of `register_provider`. -/
def providerDupMsg (provider_id : String) : String :=
  s!"Provider \x27{provider_id}\x27 is already registered"

/-- The duplicate-UDF message of `register_provider`. -/
def udfDupMsg (full_id : String) : String :=
  s!"UDF \x27{full_id}\x27 is already registered"

/-- The UDF-registration loop of `UdfRegistry::register_provider`.  The Rust
loop mutates `&mut self` and returns early on a duplicate, leaving the
already-inserted UDFs in place, so the model returns the (possibly partially
updated) registry together with the result. -/
def registerUdfs (provider_id : String) (reg : UdfRegistry) :
    List Udf → Except UdfError Unit × UdfRegistry
  | [] => (.ok (), reg)
  | udf :: rest =>
    if (reg.udfs.lookup (compositeId provider_id udf.id)).isSome then
      (.error (.ProviderNotAvailable (udfDupMsg (compositeId provider_id udf.id))),
        reg)
    else
      registerUdfs provider_id
        { reg with
          udfs := (compositeId provider_id udf.id, udf) :: reg.udfs,
          udf_providers :=
            (compositeId provider_id udf.id, provider_id) :: reg.udf_providers }
        rest

/-- `UdfRegistry::register_provider` from `registry.rs`. -/
def UdfRegistry.registerProvider (reg : UdfRegistry) (provider : UdfProvider) :
    Except UdfError Unit × UdfRegistry :=
  match provider.is_available with
  | .error e => (.error e, reg)
  | .ok _ =>
    if (reg.providers.lookup provider.id).isSome then
      (.error (.ProviderNotAvailable (providerDupMsg provider.id)), reg)
    else
      match registerUdfs provider.id reg provider.load_udfs with
      | (.error e, reg') => (.error e, reg')
      | (.ok _, reg') =>
        (.ok (), { reg' with providers := (provider.id, provider) :: reg'.providers })

/-- `UdfRegistry::get_udf`. -/
def UdfRegistry.getUdf (reg : UdfRegistry) (full_id : String) : Option Udf :=
  reg.udfs.lookup full_id

/-- `ExecutionResult` from `engine.rs`. -/
structure ExecutionResult where
  record : ExecutionRecord
  output : Option UdfOutput

/-- `ExecutionEngine` from `engine.rs`. -/
structure ExecutionEngine where
  registry : UdfRegistry
  app_version : String

/-- The `CurveLoader` capability (`load_curve` only; `load_curve_metadata`
is unused by the engine). -/
abbrev CurveLoader : Type :=
  Uuid → Except UdfError CurveData

/-- The required-parameter message `format!("'{}' is required", label)`. -/
def requiredMsg (label : String) : String :=
  s!"\x27{label}\x27 is required"

/-- `ExecutionEngine::validate_parameters` from `engine.rs`: per-definition
required check, default application, then the definition's own `validate`;
all errors are collected (the surrounding `Result` never errs and is
elided). -/
def validateParameters (parseUuid : String → Option Uuid) :
    List ParameterDefinition → List (String × ParameterValue) →
    List ValidationError
  | [], _ => []
  | d :: rest, values =>
    if ((values.lookup d.name).getD .null).isNull && d.isRequired
        && d.defaultValue.isNone then
      ValidationError.new d.name (requiredMsg d.label) ::
        validateParameters parseUuid rest values
    else
      match d.validate parseUuid
          (if ((values.lookup d.name).getD .null).isNull then
            d.defaultValue.getD .null
          else (values.lookup d.name).getD .null) with
      | .error e => e :: validateParameters parseUuid rest values
      | .ok _ => validateParameters parseUuid rest values

/-- `ExecutionEngine::validate_curve_type` from `engine.rs`.  The source
inspects `to_json()["allowed_types"]`, which is present exactly for
`CurveParameter` (with display names); the model matches on the variant
directly. -/
def validateCurveType : ParameterDefinition → CurveData → Except UdfError Unit
  | .numeric _, _ => .ok ()
  | .curve p, curve =>
    if p.allowed_types.isEmpty then
      .ok ()
    else
      let curve_type_name := curve.curve_type.displayName
      if p.allowed_types.any (fun t => t.displayName == curve_type_name) then
        .ok ()
      else
        .error (.CurveTypeMismatch
          (String.intercalate ", " (p.allowed_types.map CurveDataType.displayName))
          curve_type_name)

/-- Stage 2 of `execute_inner`: for each curve-typed definition with a bound
curve value, load the curve, validate its type, and collect the binding (in
definition order). -/
def loadCurves (parseUuid : String → Option Uuid) (loader : CurveLoader)
    (parameters : List (String × ParameterValue)) :
    List ParameterDefinition → Except UdfError (List (String × CurveData))
  | [] => .ok []
  | d :: rest =>
    if d.paramType == "curve" then
      match parameters.lookup d.name with
      | some value =>
        match value.asCurve parseUuid with
        | some curve_id =>
          match loader curve_id with
          | .error e => .error e
          | .ok curve =>
            match validateCurveType d curve with
            | .error e => .error e
            | .ok _ =>
              match loadCurves parseUuid loader parameters rest with
              | .error e => .error e
              | .ok bound => .ok ((d.name, curve) :: bound)
        | none => loadCurves parseUuid loader parameters rest
      | none => loadCurves parseUuid loader parameters rest
    else
      loadCurves parseUuid loader parameters rest

/-- The `"; "`-joined rendering of collected validation errors. -/
def joinValidationErrors (errors : List ValidationError) : String :=
  String.intercalate "; " (errors.map ValidationError.toMessage)

/-- The context built in stage 2 of `execute_inner`: the freshly created
context with each loaded curve binding folded in through `add_curve`. -/
def buildContext (well_id workspace_id : Uuid)
    (parameters : List (String × ParameterValue))
    (bound : List (String × CurveData)) : ExecutionContext :=
  bound.foldl (fun ctx p => ctx.addCurve p.1 p.2)
    (ExecutionContext.new well_id workspace_id (ParameterValues.fromMap parameters))

/-- `ExecutionEngine::execute_inner` from `engine.rs`: the staged pipeline
(parameter validation, curve loading + type check, depth compatibility,
UDF-level validation, pre-check, prepare, execute). -/
def ExecutionEngine.executeInner (parseUuid : String → Option Uuid)
    (udf : Udf) (well_id workspace_id : Uuid)
    (parameters : List (String × ParameterValue)) (loader : CurveLoader) :
    Except UdfError (ExecutionContext × UdfOutput) :=
  if !(validateParameters parseUuid udf.parameter_definitions parameters).isEmpty then
    .error (.ParameterValidation (joinValidationErrors
      (validateParameters parseUuid udf.parameter_definitions parameters)))
  else
    match loadCurves parseUuid loader parameters udf.parameter_definitions with
    | .error e => .error e
    | .ok bound =>
      match (buildContext well_id workspace_id parameters
          bound).validateDepthCompatibility with
      | .error e => .error e
      | .ok _ =>
        match udf.check_parameters (buildContext well_id workspace_id parameters
            bound) with
        | .error errors => .error (.ParameterValidation (joinValidationErrors errors))
        | .ok _ =>
          if !udf.can_execute (buildContext well_id workspace_id parameters
              bound) then
            .error (.PreCheckFailed "UDF cannot execute in current context")
          else
            match udf.prepare (buildContext well_id workspace_id parameters
                bound) with
            | .error e => .error e
            | .ok (context', ready) =>
              if !ready then
                .error (.PreCheckFailed "Pre-execution check failed")
              else
                match udf.execute context' with
                | .error e => .error e
                | .ok output => .ok (context', output)

/-- The initial execution record built by `execute` before the staged run
(status `Failed`, no inputs, no output references). -/
def initialRecord (rid : Uuid) (now : Nat) (udf_id : String) (udf : Udf)
    (parameters : List (String × ParameterValue)) (app_version : String) :
    ExecutionRecord :=
  { id := rid, udf_id := udf_id, udf_version := udf.metadata.version,
    inputs := [], parameters := parameters, output_curve_id := none,
    output_parquet_hash := none, started_at := now, completed_at := none,
    compute_app_version := app_version, status := .Failed,
    error_message := none }

/-- `ExecutionEngine::execute` from `engine.rs`.  `rid` models
`Uuid::new_v4()`, `now` models `Utc::now()` (used for both start and
completion stamps).  An unresolvable `udf_id` returns `Err(UdfNotFound)`
before any record is built; afterwards every failure is folded into the
returned record. -/
def ExecutionEngine.execute (eng : ExecutionEngine)
    (parseUuid : String → Option Uuid) (rid : Uuid) (now : Nat)
    (udf_id : String) (well_id workspace_id : Uuid)
    (parameters : List (String × ParameterValue)) (loader : CurveLoader) :
    Except UdfError ExecutionResult :=
  match eng.registry.getUdf udf_id with
  | none => .error (.UdfNotFound udf_id)
  | some udf =>
    match ExecutionEngine.executeInner parseUuid udf well_id workspace_id
        parameters loader with
    | .ok (context, output) =>
      match udf.postprocess output context with
      | .error e =>
        .ok { record := { initialRecord rid now udf_id udf parameters
                            eng.app_version with
                          completed_at := some now,
                          error_message := some e.toMessage },
              output := none }
      | .ok output' =>
        .ok { record := { initialRecord rid now udf_id udf parameters
                            eng.app_version with
                          inputs := context.input_refs,
                          status := .Completed,
                          completed_at := some now },
              output := some output' }
    | .error e =>
      .ok { record := { initialRecord rid now udf_id udf parameters
                          eng.app_version with
                        completed_at := some now,
                        error_message := some e.toMessage },
            output := none }

/-- `ExecutionEngine::validate_only` from `engine.rs`. -/
def ExecutionEngine.validateOnly (eng : ExecutionEngine)
    (parseUuid : String → Option Uuid) (udf_id : String)
    (parameters : List (String × ParameterValue)) :
    Except UdfError (List ValidationError) :=
  match eng.registry.getUdf udf_id with
  | none => .error (.UdfNotFound udf_id)
  | some udf =>
    .ok (validateParameters parseUuid udf.parameter_definitions parameters)

/-- A filesystem path, as its segments. -/
abbrev FsPath : Type :=
  List String

/-- The blob store: a map from paths to file contents (bytes as strings);
`List.lookup` models `Path::exists` plus content access. -/
abbrev FileSystem : Type :=
  List (FsPath × String)

/-- `OutputWriter` from `output_writer.rs`. -/
structure OutputWriter where
  blobs_dir : FsPath

/-- One `"{depth},{value}\n"` CSV row of `create_parquet_bytes` (a null value
leaves the column empty). -/
def csvRow (depth : ℚ) (value : Option ℚ) : String :=
  match value with
  | some v => s!"{depth},{v}\n"
  | none => s!"{depth},\n"

/-- `OutputWriter::create_parquet_bytes`: the `"depth,value"` header followed
by one row per zipped depth/value pair. -/
def createParquetBytes (output : OutputCurveData) : String :=
  "depth,value\n" ++
    String.join ((output.depths.zip output.values).map (fun p => csvRow p.1 p.2))

/-- The sharded content-addressed blob path
`blobs_dir/hash[0:2]/hash[2:4]/{hash}.parquet`. -/
def blobPath (blobs_dir : FsPath) (hash : String) : FsPath :=
  blobs_dir ++ [hash.take 2, (hash.drop 2).take 2, hash ++ ".parquet"]

/-- `OutputWriter::write_parquet_blob` from `output_writer.rs`.  `sha256`
models the SHA-256 hex digest (a pure function of the bytes).  Directory
creation, the temp-file write, fsync and the atomic rename are I/O steps
collapsed into the single store insertion; their error paths are outside the
functional model. -/
def OutputWriter.writeParquetBlob (w : OutputWriter) (sha256 : String → String)
    (fs : FileSystem) (output : OutputCurveData) :
    Except UdfError (String × FsPath) × FileSystem :=
  let parquet_bytes := createParquetBytes output
  let hash := sha256 parquet_bytes
  let blob_path := blobPath w.blobs_dir hash
  match List.lookup blob_path fs with
  | some _ => (.ok (hash, blob_path), fs)
  | none => (.ok (hash, blob_path), (blob_path, parquet_bytes) :: fs)

/-- A value bound in the `INSERT INTO curves` statement of
`register_curve` (rusqlite parameter). -/
inductive SqlValue
  | text (s : String)
  | real (q : ℚ)
  | int (i : Int)
  | bool (b : Bool)
  | null
deriving DecidableEq

/-- The row written by `OutputWriter::register_curve`, one field per column
of its `INSERT INTO curves` statement. -/
structure CurveRow where
  id : SqlValue
  well_id : SqlValue
  mnemonic : SqlValue
  unit : SqlValue
  description : SqlValue
  min_depth : SqlValue
  max_depth : SqlValue
  row_count : SqlValue
  min_value : SqlValue
  max_value : SqlValue
  parquet_hash : SqlValue
  version : SqlValue
  is_derived : SqlValue
  source_execution_id : SqlValue
  created_at : SqlValue
  updated_at : SqlValue
deriving DecidableEq

/-- The bound values of the row, in column order. -/
def CurveRow.columnValues (r : CurveRow) : List SqlValue :=
  [r.id, r.well_id, r.mnemonic, r.unit, r.description, r.min_depth,
   r.max_depth, r.row_count, r.min_value, r.max_value, r.parquet_hash,
   r.version, r.is_derived, r.source_execution_id, r.created_at, r.updated_at]

/-- `OutputWriter::register_curve` from `output_writer.rs`, as the pure
computation of the inserted row.  `curve_id` models `Uuid::new_v4()` and
`now` the rfc3339 rendering of `Utc::now()`; the database side effect is the
insertion of this row.  Statistics: depth bounds are the first/last depth,
min/max fold over the non-null values (the `f64::INFINITY` seeds of the Rust
folds reduce to plain list folds on the non-empty case). -/
def OutputWriter.registerCurveRow (curve_id : Uuid) (now : String)
    (well_id : Uuid) (output : OutputCurveData) (parquet_hash : String)
    (execution_record : ExecutionRecord) : CurveRow :=
  let min_depth := match output.depths.head? with
    | some d => SqlValue.real d
    | none => SqlValue.null
  let max_depth := match output.depths.getLast? with
    | some d => SqlValue.real d
    | none => SqlValue.null
  let valid_values := output.values.filterMap id
  let min_value := match valid_values with
    | [] => SqlValue.null
    | v :: vs => SqlValue.real (vs.foldl min v)
  let max_value := match valid_values with
    | [] => SqlValue.null
    | v :: vs => SqlValue.real (vs.foldl max v)
  { id := .text (uuidToString curve_id),
    well_id := .text (uuidToString well_id),
    mnemonic := .text output.mnemonic,
    unit := .text output.unit,
    description := match output.description with
      | some s => .text s
      | none => .null,
    min_depth := min_depth,
    max_depth := max_depth,
    row_count := .int (output.depths.length : Int),
    min_value := min_value,
    max_value := max_value,
    parquet_hash := .text parquet_hash,
    version := .int 1,
    is_derived := .bool true,
    source_execution_id := .text (uuidToString execution_record.id),
    created_at := .text now,
    updated_at := .text now }

/-- `f64::clamp` on the rational model. -/
def clampQ (x lo hi : ℚ) : ℚ :=
  if x < lo then lo else if x > hi then hi else x

/-- The per-sample Clavier computation from `VShaleClavier::execute`:
`IGR = (GR - gr_min) / gr_range`, `inner = 3.38 - (IGR + 0.7)^2`, then
`clamp(1.7 - sqrt(inner), 0, 1)` when `inner >= 0` and the fallback `1.0`
otherwise.  `sqrtQ` models `f64::sqrt`. -/
def clavierValue (sqrtQ : ℚ → ℚ) (gr_min gr_range gr : ℚ) : ℚ :=
  let igr := (gr - gr_min) / gr_range
  let inner := (3.38 : ℚ) - (igr + (0.7 : ℚ)) ^ 2
  if inner ≥ 0 then clampQ ((1.7 : ℚ) - sqrtQ inner) 0 1 else 1

/-- `VShaleClavier::execute` from `providers/petrophysics.rs`.  The source
reads `gr_min`/`gr_max` with `.unwrap()`; the model surfaces that panic
branch as an `ExecutionFailed` (it is unreachable once stage-1 validation has
passed).  The `{:.1}` float formatting of the description is rendered without
precision. -/
def VShaleClavier.execute (sqrtQ : ℚ → ℚ) (context : ExecutionContext) :
    Except UdfError UdfOutput :=
  match context.requireCurve "gr_curve" with
  | .error e => .error e
  | .ok gr_curve =>
    match context.parameters.getF64 "gr_min",
        context.parameters.getF64 "gr_max" with
    | some gr_min, some gr_max =>
      let gr_range := gr_max - gr_min
      let vsh_values := gr_curve.values.map
        (fun v => v.map (clavierValue sqrtQ gr_min gr_range))
      let mn := gr_curve.mnemonic
      let output_curve : OutputCurveData :=
        { mnemonic := "VSH_CLAV", curve_type := .Computed, unit := "v/v",
          depths := gr_curve.depths.data, values := vsh_values,
          description :=
            some s!"VShale (Clavier) from {mn}, GR range: {gr_min}-{gr_max} gAPI" }
      .ok (((UdfOutput.new output_curve).addMetadata "method" "clavier"
        |>.addMetadata "gr_min" (toString gr_min))
        |>.addMetadata "gr_max" (toString gr_max))
    | _, _ => .error (.ExecutionFailed "unwrap on missing gr_min/gr_max")

/-- `f64 as usize` on the rational model: truncation toward zero, negative
values saturating at 0 (for `q < 0`, `q.floor.toNat = 0` as well). -/
def ratToUsize (q : ℚ) : Nat :=
  q.floor.toNat

/-- The per-index moving-average loop body of `MovingAverageUdf::execute`:
the window `[i - half, min(i + half + 1, len))` is sliced, nulls dropped, and
the mean of the survivors taken (an all-null window yields null). -/
def movingAverageValues (window_size : Nat) (values : List (Option ℚ)) :
    List (Option ℚ) :=
  let half_window := window_size / 2
  (List.range values.length).map (fun i =>
    let start := i - half_window
    let stop := min (i + half_window + 1) values.length
    let window := ((values.drop start).take (stop - start)).filterMap id
    if window.isEmpty then
      none
    else
      some (window.foldl (· + ·) 0 / (window.length : ℚ)))

/-- `MovingAverageUdf::execute` from `providers/core.rs`; `window_size`
defaults to `5.0` then is cast `as usize`. -/
def MovingAverageUdf.execute (context : ExecutionContext) :
    Except UdfError UdfOutput :=
  match context.requireCurve "input_curve" with
  | .error e => .error e
  | .ok input_curve =>
    let window_size := ratToUsize ((context.parameters.getF64 "window_size").getD 5)
    let smoothed_values := movingAverageValues window_size input_curve.values
    let mn := input_curve.mnemonic
    let output_curve : OutputCurveData :=
      { mnemonic := s!"{mn}_MA{window_size}",
        curve_type := input_curve.curve_type, unit := input_curve.unit,
        depths := input_curve.depths.data, values := smoothed_values,
        description := some s!"Moving average (window={window_size}) of {mn}" }
    .ok (((UdfOutput.new output_curve).addMetadata "window_size"
      (toString window_size))
      |>.addMetadata "input_curve" mn)

/-! ## Generic helper lemmas -/

/-- A left fold of `min` lands on a member of the seeded list. -/
lemma foldl_min_mem (vs : List ℚ) : ∀ v : ℚ, vs.foldl min v ∈ v :: vs := by
  induction vs with
  | nil => intro v; simp
  | cons w vs ih =>
    intro v
    simp only [List.foldl_cons]
    rcases List.mem_cons.mp (ih (min v w)) with h1 | h1
    · rcases min_choice v w with hc | hc
      · exact List.mem_cons.mpr (Or.inl (h1.trans hc))
      · exact List.mem_cons.mpr (Or.inr (List.mem_cons.mpr (Or.inl (h1.trans hc))))
    · exact List.mem_cons.mpr (Or.inr (List.mem_cons.mpr (Or.inr h1)))

/-- A left fold of `min` is a lower bound of the seeded list. -/
lemma foldl_min_le (vs : List ℚ) :
    ∀ v x : ℚ, x ∈ v :: vs → vs.foldl min v ≤ x := by
  induction vs with
  | nil =>
    intro v x hx
    simp only [List.foldl_nil]
    simp only [List.mem_singleton] at hx
    exact le_of_eq (hx ▸ rfl)
  | cons w vs ih =>
    intro v x hx
    simp only [List.foldl_cons]
    have hseed : vs.foldl min (min v w) ≤ min v w :=
      ih (min v w) (min v w) (List.mem_cons_self _ _)
    rcases List.mem_cons.mp hx with rfl | hx'
    · exact hseed.trans (min_le_left _ _)
    · rcases List.mem_cons.mp hx' with rfl | hx'
      · exact hseed.trans (min_le_right _ _)
      · exact ih (min v w) x (List.mem_cons_of_mem _ hx')

/-- A left fold of `max` lands on a member of the seeded list. -/
lemma foldl_max_mem (vs : List ℚ) : ∀ v : ℚ, vs.foldl max v ∈ v :: vs := by
  induction vs with
  | nil => intro v; simp
  | cons w vs ih =>
    intro v
    simp only [List.foldl_cons]
    rcases List.mem_cons.mp (ih (max v w)) with h1 | h1
    · rcases max_choice v w with hc | hc
      · exact List.mem_cons.mpr (Or.inl (h1.trans hc))
      · exact List.mem_cons.mpr (Or.inr (List.mem_cons.mpr (Or.inl (h1.trans hc))))
    · exact List.mem_cons.mpr (Or.inr (List.mem_cons.mpr (Or.inr h1)))

/-- A left fold of `max` is an upper bound of the seeded list. -/
lemma foldl_max_ge (vs : List ℚ) :
    ∀ v x : ℚ, x ∈ v :: vs → x ≤ vs.foldl max v := by
  induction vs with
  | nil =>
    intro v x hx
    simp only [List.foldl_nil]
    simp only [List.mem_singleton] at hx
    exact le_of_eq (hx ▸ rfl)
  | cons w vs ih =>
    intro v x hx
    simp only [List.foldl_cons]
    have hseed : max v w ≤ vs.foldl max (max v w) :=
      ih (max v w) (max v w) (List.mem_cons_self _ _)
    rcases List.mem_cons.mp hx with rfl | hx'
    · exact (le_max_left _ _).trans hseed
    · rcases List.mem_cons.mp hx' with rfl | hx'
      · exact (le_max_right _ _).trans hseed
      · exact ih (max v w) x (List.mem_cons_of_mem _ hx')

/-! ## C7: content-addressed blob writes are idempotent -/

/-- C7: `write_parquet_blob` is idempotent: for every `OutputCurveData`, the
serialized bytes, SHA-256 content hash and sharded blob path
`hash[0:2]/hash[2:4]/hash.parquet` are the same deterministic values on every
call, and a second call over the state left by the first performs no write —
it returns the same hash/path and leaves the store untouched. -/
theorem writeParquetBlob_idempotent (sha256 : String → String)
    (w : OutputWriter) (fs : FileSystem) (output : OutputCurveData) :
    (w.writeParquetBlob sha256 fs output).1 =
      .ok (sha256 (createParquetBytes output),
        blobPath w.blobs_dir (sha256 (createParquetBytes output))) ∧
    w.writeParquetBlob sha256 (w.writeParquetBlob sha256 fs output).2 output =
      w.writeParquetBlob sha256 fs output := by
  unfold OutputWriter.writeParquetBlob
  cases h : List.lookup (blobPath w.blobs_dir (sha256 (createParquetBytes output))) fs with
  | some v => simp [h]
  | none => simp [h, List.lookup]

/-! ## C2: the statistics actually written by register_curve -/

/-- An example derived output: non-null values `10, 20` (mean `15`), two
nulls, depths `1..4`. -/
def exOutput : OutputCurveData :=
  { mnemonic := "X", curve_type := .Computed, unit := "v/v",
    depths := [1, 2, 3, 4], values := [some 10, none, none, some 20],
    description := none }

/-- An example execution record (id 7) for provenance back-references. -/
def exRecord : ExecutionRecord :=
  { id := ⟨7⟩, udf_id := "p:u", udf_version := "1.0.0", inputs := [],
    parameters := [], output_curve_id := none, output_parquet_hash := none,
    started_at := 0, completed_at := none, compute_app_version := "0.1.0",
    status := .Failed, error_message := none }

/-- The mean of the non-null values, written from the spec words of the
summary-statistics sentence (the refinement side for C2: the code writes no
such column). -/
def specMeanOfNonNull (output : OutputCurveData) : Option ℚ :=
  let vs := output.values.filterMap id
  if vs.isEmpty then none else some (vs.sum / (vs.length : ℚ))

/-- The null count, written from the spec words of the summary-statistics
sentence (the refinement side for C2: the code writes no such column). -/
def specNullCount (output : OutputCurveData) : Nat :=
  output.values.countP (fun v => v.isNone)

/-- C2 counterexample: for `exOutput` the spec-side mean of non-null values
is `15` and the null count is `2`, yet no bound value of the row written by
`register_curve` carries either quantity — the row has min/max value columns
but no mean and no null-count column. -/
theorem registerCurve_counterexample :
    specMeanOfNonNull exOutput = some 15 ∧
    specNullCount exOutput = 2 ∧
    ((OutputWriter.registerCurveRow ⟨2⟩ "t" ⟨3⟩ exOutput "h" exRecord).columnValues.any
      (fun v => v == SqlValue.real 15)) = false ∧
    ((OutputWriter.registerCurveRow ⟨2⟩ "t" ⟨3⟩ exOutput "h" exRecord).columnValues.any
      (fun v => v == SqlValue.real 2 || v == SqlValue.int 2)) = false := by
  refine ⟨?_, by decide, by decide, by decide⟩
  show specMeanOfNonNull exOutput = some 15
  have hfm : exOutput.values.filterMap id = [10, 20] := by decide
  simp only [specMeanOfNonNull, hfm]
  norm_num

/-- C2 amended: `register_curve` writes a row whose statistics are the
minimum and maximum of the non-null values and the depth bounds (first and
last depth) — no mean and no null count — with `source_execution_id` the
originating record's id and `is_derived` set. -/
theorem registerCurve_row_stats (curve_id : Uuid) (now : String)
    (well_id : Uuid) (output : OutputCurveData) (parquet_hash : String)
    (rec : ExecutionRecord) :
    (OutputWriter.registerCurveRow curve_id now well_id output parquet_hash
      rec).source_execution_id = .text (uuidToString rec.id) ∧
    (OutputWriter.registerCurveRow curve_id now well_id output parquet_hash
      rec).is_derived = .bool true ∧
    (∀ d, output.depths.head? = some d →
      (OutputWriter.registerCurveRow curve_id now well_id output parquet_hash
        rec).min_depth = .real d) ∧
    (∀ d, output.depths.getLast? = some d →
      (OutputWriter.registerCurveRow curve_id now well_id output parquet_hash
        rec).max_depth = .real d) ∧
    (output.values.filterMap id ≠ [] →
      ∃ m M,
        (OutputWriter.registerCurveRow curve_id now well_id output parquet_hash
          rec).min_value = .real m ∧
        (OutputWriter.registerCurveRow curve_id now well_id output parquet_hash
          rec).max_value = .real M ∧
        m ∈ output.values.filterMap id ∧ M ∈ output.values.filterMap id ∧
        ∀ x ∈ output.values.filterMap id, m ≤ x ∧ x ≤ M) := by
  refine ⟨rfl, rfl, ?_, ?_, ?_⟩
  · intro d hd
    simp [OutputWriter.registerCurveRow, hd]
  · intro d hd
    simp [OutputWriter.registerCurveRow, hd]
  · intro hne
    cases hvv : output.values.filterMap id with
    | nil => exact absurd hvv hne
    | cons v vs =>
      refine ⟨vs.foldl min v, vs.foldl max v, ?_, ?_, ?_, ?_, ?_⟩
      · simp [OutputWriter.registerCurveRow, hvv]
      · simp [OutputWriter.registerCurveRow, hvv]
      · exact foldl_min_mem vs v
      · exact foldl_max_mem vs v
      · intro x hx
        exact ⟨foldl_min_le vs v x hx, foldl_max_ge vs v x hx⟩

/-! ## C8: moving average with window 1 is the identity on non-null input -/

/-- With window size 1 the half-window is 0, so each window is the singleton
sample; on non-null input the average of that singleton is the sample. -/
lemma movingAverageValues_one (l : List (Option ℚ)) (h : ∀ v ∈ l, v ≠ none) :
    movingAverageValues 1 l = l := by
  have hrepr : movingAverageValues 1 l = (List.range l.length).map (fun i =>
      let window := ((l.drop i).take (min (i + 1) l.length - i)).filterMap id
      if window.isEmpty then none
      else some (window.foldl (· + ·) 0 / (window.length : ℚ))) := rfl
  rw [hrepr]
  apply List.ext_getElem (by simp)
  intro i h1 h2
  simp only [List.getElem_map, List.getElem_range]
  have hi : i < l.length := h2
  have hmin : min (i + 1) l.length - i = 1 := by omega
  rw [hmin, List.drop_eq_getElem_cons hi]
  obtain ⟨x, hx⟩ := Option.ne_none_iff_exists'.mp (h _ (List.getElem_mem hi))
  rw [hx]
  simp [List.take_cons, List.filterMap]

/-- C8: for every input curve all of whose values are non-null, the
moving-average transform with `window_size = 1` returns the input values
unchanged (identity transform). -/
theorem movingAverage_window_one_identity (context : ExecutionContext)
    (c : CurveData)
    (hcurve : context.getCurve "input_curve" = some c)
    (hwin : context.parameters.getF64 "window_size" = some 1)
    (hnonnull : ∀ v ∈ c.values, v ≠ none) :
    ∃ out, MovingAverageUdf.execute context = .ok out ∧
      out.curve_data.values = c.values := by
  have hreq : context.requireCurve "input_curve" = .ok c := by
    unfold ExecutionContext.requireCurve
    rw [hcurve]
  have hws : ratToUsize ((context.parameters.getF64 "window_size").getD 5) = 1 := by
    rw [hwin]
    decide
  unfold MovingAverageUdf.execute
  simp only [hreq, hws]
  exact ⟨_, rfl, movingAverageValues_one c.values hnonnull⟩

/-- A concrete non-null test curve for the moving-average witness. -/
def exCurve8 : CurveData :=
  { curve_id := ⟨10⟩, mnemonic := "TEST", curve_type := .Unknown, unit := "u",
    depths := ⟨0, [100, 101, 102]⟩,
    values := [some 10, some 20, some 30], parquet_hash := "th", version := 1 }

/-- A concrete execution context binding `exCurve8` with `window_size = 1`. -/
def exCtx8 : ExecutionContext :=
  { parameters := ⟨[("window_size", .number 1)]⟩,
    curves := [("input_curve", exCurve8)], input_refs := [],
    well_id := ⟨1⟩, workspace_id := ⟨2⟩, metadata := [] }

/-- C8 witnessed on `exCtx8`. -/
theorem movingAverage_window_one_identity_witness :
    ∃ out, MovingAverageUdf.execute exCtx8 = .ok out ∧
      out.curve_data.values = exCurve8.values :=
  movingAverage_window_one_identity exCtx8 exCurve8 rfl rfl (by decide)

/-! ## C6: the Clavier VShale formula -/

/-- C6: for a bound gamma-ray curve and numeric `gr_min < gr_max`,
`VShaleClavier::execute` succeeds and maps every non-null sample `GR` to
`clamp(1.7 - sqrt(3.38 - (IGR + 0.7)^2), 0, 1)` with
`IGR = (GR - gr_min)/(gr_max - gr_min)`, falling back to `1.0` when the
radicand is negative; nulls map to null (`Option.map`), and the output keeps
the input's length and depth array. -/
theorem vshaleClavier_formula (sqrtQ : ℚ → ℚ) (context : ExecutionContext)
    (c : CurveData) (grMin grMax : ℚ)
    (hc : context.getCurve "gr_curve" = some c)
    (hmin : context.parameters.getF64 "gr_min" = some grMin)
    (hmax : context.parameters.getF64 "gr_max" = some grMax)
    (_hlt : grMin < grMax) :
    ∃ out, VShaleClavier.execute sqrtQ context = .ok out ∧
      out.curve_data.depths = c.depths.data ∧
      out.curve_data.values.length = c.values.length ∧
      out.curve_data.values = c.values.map (fun v => v.map (fun gr =>
        if (3.38 : ℚ) - ((gr - grMin) / (grMax - grMin) + 0.7) ^ 2 < 0 then 1
        else clampQ ((1.7 : ℚ) -
          sqrtQ ((3.38 : ℚ) - ((gr - grMin) / (grMax - grMin) + 0.7) ^ 2)) 0 1)) := by
  have hreq : context.requireCurve "gr_curve" = .ok c := by
    unfold ExecutionContext.requireCurve
    rw [hc]
  have hfun : ∀ v : Option ℚ,
      v.map (clavierValue sqrtQ grMin (grMax - grMin)) =
      v.map (fun gr =>
        if (3.38 : ℚ) - ((gr - grMin) / (grMax - grMin) + 0.7) ^ 2 < 0 then 1
        else clampQ ((1.7 : ℚ) -
          sqrtQ ((3.38 : ℚ) - ((gr - grMin) / (grMax - grMin) + 0.7) ^ 2)) 0 1) := by
    intro v
    cases v with
    | none => rfl
    | some gr =>
      simp only [Option.map_some']
      unfold clavierValue
      rcases lt_or_ge ((3.38 : ℚ) - ((gr - grMin) / (grMax - grMin) + 0.7) ^ 2) 0
        with hneg | hpos
      · rw [if_pos hneg, if_neg (not_le.mpr hneg)]
      · rw [if_neg (not_lt.mpr hpos), if_pos hpos]
  unfold VShaleClavier.execute
  simp only [hreq, hmin, hmax]
  refine ⟨_, rfl, rfl, ?_, ?_⟩
  · simp [UdfOutput.addMetadata, UdfOutput.new]
  · simp only [UdfOutput.addMetadata, UdfOutput.new]
    exact List.map_congr_left (fun v _ => hfun v)

/-! ## C3: depth compatibility validation -/

/-- If every zipped depth pair is within tolerance the scan succeeds. -/
lemma checkDepthsFrom_ok (name : String) :
    ∀ (pairs : List (ℚ × ℚ)) (k : Nat),
    (∀ p ∈ pairs, abs (p.1 - p.2) ≤ depthTolerance) →
    checkDepthsFrom name k pairs = .ok () := by
  intro pairs
  induction pairs with
  | nil => intro k _; rfl
  | cons p rest ih =>
    intro k h
    unfold checkDepthsFrom
    rw [if_neg (not_lt.mpr (h p (List.mem_cons_self _ _)))]
    exact ih (k + 1) (fun q hq => h q (List.mem_cons_of_mem _ hq))

/-- The scan reports the first pair beyond tolerance, with its enumerated
index offset by the starting counter. -/
lemma checkDepthsFrom_error (name : String) :
    ∀ (pairs : List (ℚ × ℚ)) (k i : Nat), i < pairs.length →
    (∀ j < i, abs ((pairs.getD j (0, 0)).1 - (pairs.getD j (0, 0)).2) ≤ depthTolerance) →
    abs ((pairs.getD i (0, 0)).1 - (pairs.getD i (0, 0)).2) > depthTolerance →
    checkDepthsFrom name k pairs = .error (.IncompatibleData
      (depthMismatchMsg (k + i) name (pairs.getD i (0, 0)).1 (pairs.getD i (0, 0)).2)) := by
  intro pairs
  induction pairs with
  | nil => intro k i hi; simp at hi
  | cons p rest ih =>
    intro k i hi hfirst hmis
    cases i with
    | zero =>
      simp only [List.getD_cons_zero] at hmis ⊢
      unfold checkDepthsFrom
      rw [if_pos hmis, Nat.add_zero]
    | succ i' =>
      have hhead : abs (p.1 - p.2) ≤ depthTolerance := by
        have := hfirst 0 (Nat.succ_pos i')
        simpa using this
      unfold checkDepthsFrom
      rw [if_neg (not_lt.mpr hhead)]
      have hrec := ih (k + 1) i' (by simpa using hi)
        (fun j hj => by simpa using hfirst (j + 1) (Nat.succ_lt_succ hj))
        (by simpa using hmis)
      rw [hrec]
      have harith : k + 1 + i' = k + (i' + 1) := by omega
      simp only [List.getD_cons_succ, harith]

/-- `getD` distributes over `zip` inside the bounds. -/
lemma zip_getD (l1 l2 : List ℚ) (j : Nat) (h1 : j < l1.length)
    (h2 : j < l2.length) :
    (l1.zip l2).getD j (0, 0) = (l1.getD j 0, l2.getD j 0) := by
  have hz : j < (l1.zip l2).length := by
    rw [List.length_zip]
    omega
  rw [List.getD_eq_getElem _ _ hz, List.getD_eq_getElem _ _ h1,
    List.getD_eq_getElem _ _ h2]
  exact List.getElem_zip

/-- If every remaining curve shares the reference depth object or matches it
within tolerance, the per-curve loop succeeds. -/
lemma validateDepthsAgainst_ok (refD : SharedDepths) :
    ∀ (rest : List (String × CurveData)),
    (∀ p ∈ rest, p.2.depths.ptrId = refD.ptrId ∨
      (p.2.depths.data.length = refD.data.length ∧
        ∀ j < refD.data.length,
          abs (refD.data.getD j 0 - p.2.depths.data.getD j 0) ≤ depthTolerance)) →
    validateDepthsAgainst refD rest = .ok () := by
  intro rest
  induction rest with
  | nil => intro _; rfl
  | cons p rest ih =>
    intro h
    obtain ⟨name, curve⟩ := p
    unfold validateDepthsAgainst
    by_cases hptr : refD.ptrId = curve.depths.ptrId
    · rw [if_pos hptr]
      exact ih (fun q hq => h q (List.mem_cons_of_mem _ hq))
    · rw [if_neg hptr]
      rcases h (name, curve) (List.mem_cons_self _ _) with heq | ⟨hlen, hpt⟩
      · exact absurd heq.symm hptr
      · dsimp only at hlen hpt
        rw [if_neg (by omega)]
        have hok : checkDepthsFrom name 0 (refD.data.zip curve.depths.data) = .ok () := by
          apply checkDepthsFrom_ok
          intro q hq
          obtain ⟨j, hj, hq'⟩ := List.mem_iff_getElem.mp hq
          have hjlen : j < refD.data.length := by
            rw [List.length_zip] at hj
            omega
          have hjlen2 : j < curve.depths.data.length := by
            rw [List.length_zip] at hj
            omega
          have hq2 : q = (refD.data[j], curve.depths.data[j]) := by
            rw [← hq']
            exact List.getElem_zip
          have hb := hpt j hjlen
          rw [List.getD_eq_getElem _ _ hjlen, List.getD_eq_getElem _ _ hjlen2] at hb
          rw [hq2]
          exact hb
        rw [hok]
        exact ih (fun q hq => h q (List.mem_cons_of_mem _ hq))

/-- C3: with the first bound curve's depths as reference and a second curve
holding a distinct depth object, `validate_depth_compatibility` reports
`IncompatibleData` naming the curve and both sample counts on a length
mismatch; with equal lengths it reports `IncompatibleData` naming the first
index whose depths differ by more than `1e-6` together with both values; and
it returns Ok when every other curve either shares the reference depth
object or agrees pointwise within `1e-6`. -/
theorem validateDepthCompatibility_spec :
    (∀ (ctx : ExecutionContext) (n1 n2 : String) (c1 c2 : CurveData)
      (rest : List (String × CurveData)),
      ctx.curves = (n1, c1) :: (n2, c2) :: rest →
      c1.depths.ptrId ≠ c2.depths.ptrId →
      c2.depths.data.length ≠ c1.depths.data.length →
      ctx.validateDepthCompatibility = .error (.IncompatibleData
        (lengthMismatchMsg n2 c2.depths.data.length c1.depths.data.length))) ∧
    (∀ (ctx : ExecutionContext) (n1 n2 : String) (c1 c2 : CurveData)
      (rest : List (String × CurveData)) (i : Nat),
      ctx.curves = (n1, c1) :: (n2, c2) :: rest →
      c1.depths.ptrId ≠ c2.depths.ptrId →
      c2.depths.data.length = c1.depths.data.length →
      i < c1.depths.data.length →
      (∀ j < i, abs (c1.depths.data.getD j 0 - c2.depths.data.getD j 0) ≤ depthTolerance) →
      abs (c1.depths.data.getD i 0 - c2.depths.data.getD i 0) > depthTolerance →
      ctx.validateDepthCompatibility = .error (.IncompatibleData
        (depthMismatchMsg i n2 (c1.depths.data.getD i 0) (c2.depths.data.getD i 0)))) ∧
    (∀ (ctx : ExecutionContext) (n1 : String) (c1 : CurveData)
      (rest : List (String × CurveData)),
      ctx.curves = (n1, c1) :: rest →
      (∀ p ∈ rest, p.2.depths.ptrId = c1.depths.ptrId ∨
        (p.2.depths.data.length = c1.depths.data.length ∧
          ∀ j < c1.depths.data.length,
            abs (c1.depths.data.getD j 0 - p.2.depths.data.getD j 0) ≤ depthTolerance)) →
      ctx.validateDepthCompatibility = .ok ()) := by
  refine ⟨?_, ?_, ?_⟩
  · intro ctx n1 n2 c1 c2 rest hcurves hptr hlen
    unfold ExecutionContext.validateDepthCompatibility
    rw [hcurves]
    unfold validateDepthsAgainst
    rw [if_neg hptr, if_pos (by omega)]
  · intro ctx n1 n2 c1 c2 rest i hcurves hptr hlen hi hfirst hmis
    unfold ExecutionContext.validateDepthCompatibility
    rw [hcurves]
    unfold validateDepthsAgainst
    rw [if_neg hptr, if_neg (by omega)]
    have hi2 : i < c2.depths.data.length := by omega
    have hzlen : i < (c1.depths.data.zip c2.depths.data).length := by
      rw [List.length_zip]
      omega
    have herr := checkDepthsFrom_error n2 (c1.depths.data.zip c2.depths.data) 0 i
      hzlen
      (fun j hj => by
        have hj1 : j < c1.depths.data.length := by omega
        have hj2 : j < c2.depths.data.length := by omega
        rw [zip_getD _ _ j hj1 hj2]
        exact hfirst j hj)
      (by
        rw [zip_getD _ _ i hi hi2]
        exact hmis)
    rw [zip_getD _ _ i hi hi2] at herr
    simp only [Nat.zero_add] at herr
    rw [herr]
  · intro ctx n1 c1 rest hcurves hall
    unfold ExecutionContext.validateDepthCompatibility
    rw [hcurves]
    exact validateDepthsAgainst_ok c1.depths rest hall

/-- Curves sharing one depth object (ptr id 5) and a third within tolerance,
for the C3 Ok-part witness; `c2` below diverges at index 1 for the error
parts. -/
def exDepthCurve (pid : Nat) (ds : List ℚ) : CurveData :=
  { curve_id := ⟨20⟩, mnemonic := "D", curve_type := .Unknown, unit := "u",
    depths := ⟨pid, ds⟩, values := ds.map some, parquet_hash := "dh",
    version := 1 }

/-- A context whose second curve has a short depth array (length mismatch). -/
def exCtx3len : ExecutionContext :=
  { parameters := ⟨[]⟩,
    curves := [("a", exDepthCurve 5 [100, 101, 102]),
               ("b", exDepthCurve 6 [100, 101])],
    input_refs := [], well_id := ⟨1⟩, workspace_id := ⟨2⟩, metadata := [] }

/-- A context whose second curve diverges at index 1 by more than `1e-6`. -/
def exCtx3mis : ExecutionContext :=
  { parameters := ⟨[]⟩,
    curves := [("a", exDepthCurve 5 [100, 101, 102]),
               ("b", exDepthCurve 6 [100, 102, 102])],
    input_refs := [], well_id := ⟨1⟩, workspace_id := ⟨2⟩, metadata := [] }

/-- A context whose second curve shares the depth object and whose third
agrees pointwise (within zero error). -/
def exCtx3ok : ExecutionContext :=
  { parameters := ⟨[]⟩,
    curves := [("a", exDepthCurve 5 [100, 101, 102]),
               ("b", exDepthCurve 5 [100, 101, 102]),
               ("c", exDepthCurve 7 [100, 101, 102])],
    input_refs := [], well_id := ⟨1⟩, workspace_id := ⟨2⟩, metadata := [] }

/-- C3 witnessed: the length mismatch names curve `b` with counts 2 and 3,
the pointwise mismatch names index 1 with values 101 and 102, and the
compatible context validates Ok. -/
theorem validateDepthCompatibility_spec_witness :
    exCtx3len.validateDepthCompatibility = .error (.IncompatibleData
      (lengthMismatchMsg "b" 2 3)) ∧
    exCtx3mis.validateDepthCompatibility = .error (.IncompatibleData
      (depthMismatchMsg 1 "b" 101 102)) ∧
    exCtx3ok.validateDepthCompatibility = .ok () := by
  refine ⟨?_, ?_, ?_⟩
  · exact validateDepthCompatibility_spec.1 exCtx3len "a" "b"
      (exDepthCurve 5 [100, 101, 102]) (exDepthCurve 6 [100, 101]) [] rfl
      (by decide) (by decide)
  · refine validateDepthCompatibility_spec.2.1 exCtx3mis "a" "b"
      (exDepthCurve 5 [100, 101, 102]) (exDepthCurve 6 [100, 102, 102]) [] 1 rfl
      (by decide) (by decide) (by decide) ?_ ?_
    · intro j hj
      interval_cases j
      norm_num [exDepthCurve, depthTolerance]
    · norm_num [exDepthCurve, depthTolerance]
  · refine validateDepthCompatibility_spec.2.2 exCtx3ok "a"
      (exDepthCurve 5 [100, 101, 102])
      [("b", exDepthCurve 5 [100, 101, 102]),
       ("c", exDepthCurve 7 [100, 101, 102])] rfl ?_
    intro p hp
    rcases List.mem_cons.mp hp with rfl | hp
    · exact Or.inl rfl
    rcases List.mem_cons.mp hp with rfl | hp
    · refine Or.inr ⟨rfl, ?_⟩
      intro j hj
      simp only [exDepthCurve, List.length_cons, List.length_nil] at hj
      interval_cases j <;> norm_num [exDepthCurve, depthTolerance]
    · simp at hp

/-! ## C4 and C9: provider registration -/

/-- Prepending a binding preserves lookup success. -/
lemma lookup_isSome_cons {α β : Type} [BEq α] {k : α} (k' : α) (v : β)
    {l : List (α × β)} (h : (List.lookup k l).isSome) :
    (List.lookup k ((k', v) :: l)).isSome := by
  rw [List.lookup_cons]
  cases hkk : k == k' with
  | true => rfl
  | false => simpa using h

/-- Lookup skips a binding with a different key. -/
lemma lookup_cons_ne {α β : Type} [BEq α] {k k' : α} (v : β)
    (l : List (α × β)) (h : (k == k') = false) :
    List.lookup k ((k', v) :: l) = List.lookup k l := by
  rw [List.lookup_cons, h]

/-- Unfolding of `registerUdfs` at a colliding head UDF. -/
lemma registerUdfs_cons_dup (pid : String) (reg : UdfRegistry) (u : Udf)
    (rest : List Udf)
    (h : (reg.udfs.lookup (compositeId pid u.id)).isSome = true) :
    registerUdfs pid reg (u :: rest) =
      (.error (.ProviderNotAvailable (udfDupMsg (compositeId pid u.id))), reg) := by
  unfold registerUdfs
  rw [if_pos h]

/-- Unfolding of `registerUdfs` at a fresh head UDF. -/
lemma registerUdfs_cons_fresh (pid : String) (reg : UdfRegistry) (u : Udf)
    (rest : List Udf)
    (h : (reg.udfs.lookup (compositeId pid u.id)).isSome = false) :
    registerUdfs pid reg (u :: rest) =
      registerUdfs pid
        { reg with
          udfs := (compositeId pid u.id, u) :: reg.udfs,
          udf_providers := (compositeId pid u.id, pid) :: reg.udf_providers }
        rest := by
  conv_lhs => unfold registerUdfs
  rw [if_neg (by simp [h])]

/-- The registration loop never touches the provider table. -/
lemma registerUdfs_providers (pid : String) :
    ∀ (us : List Udf) (reg : UdfRegistry),
    ((registerUdfs pid reg us).2).providers = reg.providers := by
  intro us
  induction us with
  | nil => intro reg; rfl
  | cons u rest ih =>
    intro reg
    cases hc : (reg.udfs.lookup (compositeId pid u.id)).isSome with
    | true => rw [registerUdfs_cons_dup pid reg u rest hc]
    | false => rw [registerUdfs_cons_fresh pid reg u rest hc]; exact ih _

/-- If some pending UDF's composite id is already present, the registration
loop ends in a duplicate-UDF error. -/
lemma registerUdfs_err_of_collision (pid : String) :
    ∀ (us : List Udf) (reg : UdfRegistry),
    (∃ u ∈ us, (reg.udfs.lookup (compositeId pid u.id)).isSome) →
    ∃ fid, (registerUdfs pid reg us).1 =
      .error (.ProviderNotAvailable (udfDupMsg fid)) := by
  intro us
  induction us with
  | nil =>
    intro reg h
    obtain ⟨u, hu, _⟩ := h
    simp at hu
  | cons u rest ih =>
    intro reg h
    cases hc : (reg.udfs.lookup (compositeId pid u.id)).isSome with
    | true =>
      exact ⟨compositeId pid u.id, by rw [registerUdfs_cons_dup pid reg u rest hc]⟩
    | false =>
      rw [registerUdfs_cons_fresh pid reg u rest hc]
      obtain ⟨v, hv, hvs⟩ := h
      rcases List.mem_cons.mp hv with rfl | hv'
      · rw [hc] at hvs
        exact absurd hvs (by simp)
      · exact ih _ ⟨v, hv', lookup_isSome_cons _ _ hvs⟩

/-- C4 counterexample provider: `is_available` reports a `DatabaseError`. -/
def exProvBad : UdfProvider :=
  { id := "bad", name := "Bad", version := "0.1.0", description := "d",
    load_udfs := [], is_available := .error (.DatabaseError "db is down") }

/-- C4 counterexample: a provider whose `is_available` errs with
`DatabaseError` makes `register_provider` fail with that same
`DatabaseError` — not with `ProviderNotAvailable` as the claim states. -/
theorem registerProvider_counterexample :
    (UdfRegistry.empty.registerProvider exProvBad).1 =
      .error (.DatabaseError "db is down") ∧
    (UdfError.DatabaseError "db is down").isProviderNotAvailable = false :=
  ⟨rfl, rfl⟩

/-- C4 amended: `register_provider` checks `is_available()` first,
propagating its error unchanged (which is `ProviderNotAvailable` only when
the provider reports it so); with availability Ok it rejects an already
registered provider id, and rejects a provider any of whose loaded UDFs has
a composite id `provider:udf` already present, with both duplicate errors
reported as `ProviderNotAvailable`. -/
theorem registerProvider_error_cases :
    (∀ (reg : UdfRegistry) (p : UdfProvider) (e : UdfError),
      p.is_available = .error e → reg.registerProvider p = (.error e, reg)) ∧
    (∀ (reg : UdfRegistry) (p : UdfProvider),
      p.is_available = .ok () → (reg.providers.lookup p.id).isSome →
      reg.registerProvider p =
        (.error (.ProviderNotAvailable (providerDupMsg p.id)), reg)) ∧
    (∀ (reg : UdfRegistry) (p : UdfProvider),
      p.is_available = .ok () → reg.providers.lookup p.id = none →
      (∃ u ∈ p.load_udfs, (reg.udfs.lookup (compositeId p.id u.id)).isSome) →
      ∃ fid, (reg.registerProvider p).1 =
        .error (.ProviderNotAvailable (udfDupMsg fid))) := by
  refine ⟨?_, ?_, ?_⟩
  · intro reg p e ha
    unfold UdfRegistry.registerProvider
    rw [ha]
  · intro reg p ha hdup
    unfold UdfRegistry.registerProvider
    rw [ha]
    dsimp only
    rw [if_pos hdup]
  · intro reg p ha hfresh hcol
    obtain ⟨fid, hfid⟩ := registerUdfs_err_of_collision p.id p.load_udfs reg hcol
    refine ⟨fid, ?_⟩
    unfold UdfRegistry.registerProvider
    rw [ha]
    dsimp only
    rw [if_neg (by simp [hfresh])]
    cases hrr : registerUdfs p.id reg p.load_udfs with
    | mk res reg' =>
      rw [hrr] at hfid
      simp only at hfid
      rw [hfid]

/-- A minimal UDF whose hooks are the trait defaults of `mod.rs` and whose
`execute` reports a fixed failure (used to exercise the engine paths). -/
def mkSimpleUdf (i : String) : Udf :=
  { id := i,
    metadata := { name := i, category := "c", description := "",
                  documentation := none, version := "1.0.0", tags := [] },
    parameter_definitions := [],
    can_execute := fun _ => true,
    prepare := fun ctx => .ok (ctx, true),
    execute := fun _ => .error (.ExecutionFailed "not implemented"),
    postprocess := fun o _ => .ok o,
    check_parameters := fun _ => .ok () }

/-- A provider already occupying id `dup`. -/
def exProvOk : UdfProvider :=
  { id := "dup", name := "Dup", version := "0.1.0", description := "d",
    load_udfs := [], is_available := .ok () }

/-- A registry with provider id `dup` taken. -/
def exRegDup : UdfRegistry :=
  { providers := [("dup", exProvOk)], udfs := [], udf_providers := [] }

/-- A registry already holding a UDF under composite id `p:b`. -/
def exReg9 : UdfRegistry :=
  { providers := [], udfs := [("p:b", mkSimpleUdf "b0")],
    udf_providers := [("p:b", "q")] }

/-- A provider `p` that loads a fresh UDF `a` and then a colliding `b`. -/
def exProv9 : UdfProvider :=
  { id := "p", name := "P", version := "0.1.0", description := "d",
    load_udfs := [mkSimpleUdf "a", mkSimpleUdf "b"], is_available := .ok () }

/-- C4 witnessed: the availability error propagates, the duplicate provider
id is rejected, and the colliding UDF id is rejected. -/
theorem registerProvider_error_cases_witness :
    UdfRegistry.empty.registerProvider exProvBad =
      (.error (.DatabaseError "db is down"), UdfRegistry.empty) ∧
    exRegDup.registerProvider exProvOk =
      (.error (.ProviderNotAvailable (providerDupMsg "dup")), exRegDup) ∧
    ∃ fid, (exReg9.registerProvider exProv9).1 =
      .error (.ProviderNotAvailable (udfDupMsg fid)) := by
  refine ⟨?_, ?_, ?_⟩
  · exact registerProvider_error_cases.1 UdfRegistry.empty exProvBad
      (.DatabaseError "db is down") rfl
  · exact registerProvider_error_cases.2.1 exRegDup exProvOk rfl rfl
  · exact registerProvider_error_cases.2.2 exReg9 exProv9 rfl rfl
      ⟨mkSimpleUdf "b", by simp [exProv9], rfl⟩

/-- The core induction for C9: if the UDFs before `ustar` are fresh and
mutually distinct while `ustar` collides, registration errs naming `ustar`,
keeps every earlier UDF retrievable, and leaves unrelated keys untouched. -/
lemma registerUdfs_stopsAtDup (pid : String) :
    ∀ (us₁ : List Udf) (reg : UdfRegistry) (ustar : Udf) (us₂ : List Udf),
    (us₁.map (fun u => compositeId pid u.id)).Nodup →
    (∀ u ∈ us₁, reg.udfs.lookup (compositeId pid u.id) = none) →
    (reg.udfs.lookup (compositeId pid ustar.id)).isSome →
    (registerUdfs pid reg (us₁ ++ ustar :: us₂)).1 =
      .error (.ProviderNotAvailable (udfDupMsg (compositeId pid ustar.id))) ∧
    (∀ u ∈ us₁, (registerUdfs pid reg (us₁ ++ ustar :: us₂)).2.udfs.lookup
      (compositeId pid u.id) = some u) ∧
    (∀ k, k ∉ us₁.map (fun u => compositeId pid u.id) →
      (registerUdfs pid reg (us₁ ++ ustar :: us₂)).2.udfs.lookup k =
        reg.udfs.lookup k) := by
  intro us₁
  induction us₁ with
  | nil =>
    intro reg ustar us₂ _ _ hdup
    have hrw : registerUdfs pid reg ([] ++ ustar :: us₂) =
        (.error (.ProviderNotAvailable (udfDupMsg (compositeId pid ustar.id))),
          reg) := by
      show registerUdfs pid reg (ustar :: us₂) = _
      exact registerUdfs_cons_dup pid reg ustar us₂ hdup
    rw [hrw]
    exact ⟨rfl, by simp, fun k _ => rfl⟩
  | cons u us₁ ih =>
    intro reg ustar us₂ hnodup hfresh hdup
    have hcfalse : (reg.udfs.lookup (compositeId pid u.id)).isSome = false := by
      rw [hfresh u (List.mem_cons_self _ _)]
      rfl
    rw [List.map_cons, List.nodup_cons] at hnodup
    have hnotin : compositeId pid u.id ∉
        us₁.map (fun v => compositeId pid v.id) := hnodup.1
    set reg1 : UdfRegistry :=
      { reg with
        udfs := (compositeId pid u.id, u) :: reg.udfs,
        udf_providers := (compositeId pid u.id, pid) :: reg.udf_providers }
      with hreg1
    have hstep : registerUdfs pid reg ((u :: us₁) ++ ustar :: us₂) =
        registerUdfs pid reg1 (us₁ ++ ustar :: us₂) := by
      show registerUdfs pid reg (u :: (us₁ ++ ustar :: us₂)) = _
      exact registerUdfs_cons_fresh pid reg u _ hcfalse
    have hih := ih reg1 ustar us₂ hnodup.2
      (fun v hv => by
        have hne : (compositeId pid v.id == compositeId pid u.id) = false := by
          rw [beq_eq_false_iff_ne]
          intro hEq
          exact hnotin (hEq ▸ List.mem_map_of_mem _ hv)
        show List.lookup (compositeId pid v.id)
          ((compositeId pid u.id, u) :: reg.udfs) = none
        rw [lookup_cons_ne _ _ hne]
        exact hfresh v (List.mem_cons_of_mem _ hv))
      (lookup_isSome_cons _ _ hdup)
    refine ⟨by rw [hstep]; exact hih.1, ?_, ?_⟩
    · intro v hv
      rcases List.mem_cons.mp hv with rfl | hv'
      · rw [hstep, hih.2.2 (compositeId pid v.id) hnotin]
        show List.lookup (compositeId pid v.id)
          ((compositeId pid v.id, v) :: reg.udfs) = some v
        rw [List.lookup_cons]
        have : (compositeId pid v.id == compositeId pid v.id) = true := by simp
        rw [this]
      · rw [hstep]
        exact hih.2.1 v hv'
    · intro k hk
      have hk1 : (k == compositeId pid u.id) = false := by
        rw [beq_eq_false_iff_ne]
        intro hEq
        exact hk (by simp [hEq])
      have hk2 : k ∉ us₁.map (fun v => compositeId pid v.id) := by
        intro hmem
        exact hk (by simp [hmem])
      rw [hstep, hih.2.2 k hk2]
      show List.lookup k ((compositeId pid u.id, u) :: reg.udfs) = _
      rw [lookup_cons_ne _ _ hk1]

/-- C9: UDF registration is not atomic on a duplicate composite id — the
provider table is untouched but the UDFs processed before the collision stay
registered and retrievable through `get_udf`. -/
theorem registerProvider_partial_registration (reg : UdfRegistry)
    (p : UdfProvider) (us₁ : List Udf) (ustar : Udf) (us₂ : List Udf)
    (hload : p.load_udfs = us₁ ++ ustar :: us₂)
    (hav : p.is_available = .ok ())
    (hfresh : reg.providers.lookup p.id = none)
    (hnodup : (us₁.map (fun u => compositeId p.id u.id)).Nodup)
    (hok1 : ∀ u ∈ us₁, reg.udfs.lookup (compositeId p.id u.id) = none)
    (hdup : (reg.udfs.lookup (compositeId p.id ustar.id)).isSome) :
    (reg.registerProvider p).1 =
      .error (.ProviderNotAvailable (udfDupMsg (compositeId p.id ustar.id))) ∧
    (reg.registerProvider p).2.providers = reg.providers ∧
    ∀ u ∈ us₁, (reg.registerProvider p).2.getUdf (compositeId p.id u.id) =
      some u := by
  have hpart := registerUdfs_stopsAtDup p.id us₁ reg ustar us₂ hnodup hok1 hdup
  have hprov := registerUdfs_providers p.id (us₁ ++ ustar :: us₂) reg
  have hmain : reg.registerProvider p =
      registerUdfs p.id reg (us₁ ++ ustar :: us₂) := by
    unfold UdfRegistry.registerProvider
    rw [hav]
    dsimp only
    rw [if_neg (by simp [hfresh]), hload]
    cases hrr : registerUdfs p.id reg (us₁ ++ ustar :: us₂) with
    | mk res reg' =>
      have hres : res = .error
          (.ProviderNotAvailable (udfDupMsg (compositeId p.id ustar.id))) := by
        have h1 := hpart.1
        rw [hrr] at h1
        exact h1
      subst hres
      rfl
  rw [hmain]
  exact ⟨hpart.1, hprov, hpart.2.1⟩

/-- C9 witnessed: registering provider `p` over `exReg9` (which already holds
`p:b`) errs on `b`, leaves the provider table empty, and keeps `p:a`
retrievable via `get_udf`. -/
theorem registerProvider_partial_registration_witness :
    (exReg9.registerProvider exProv9).1 =
      .error (.ProviderNotAvailable (udfDupMsg "p:b")) ∧
    (exReg9.registerProvider exProv9).2.providers = exReg9.providers ∧
    ∀ u ∈ [mkSimpleUdf "a"],
      (exReg9.registerProvider exProv9).2.getUdf (compositeId "p" u.id) =
        some u := by
  exact registerProvider_partial_registration exReg9 exProv9
    [mkSimpleUdf "a"] (mkSimpleUdf "b") [] rfl rfl rfl (by simp)
    (by
      intro u hu
      simp only [List.mem_singleton] at hu
      subst hu
      rfl)
    rfl

/-- A concrete gamma-ray curve (one null sample) for the Clavier witness. -/
def exCurve6 : CurveData :=
  { curve_id := ⟨11⟩, mnemonic := "GR", curve_type := .GammaRay, unit := "gAPI",
    depths := ⟨1, [100, 101]⟩, values := [some 30, none],
    parquet_hash := "gh", version := 1 }

/-- A concrete execution context binding `exCurve6` with
`gr_min = 30 < gr_max = 100`. -/
def exCtx6 : ExecutionContext :=
  { parameters := ⟨[("gr_min", .number 30), ("gr_max", .number 100)]⟩,
    curves := [("gr_curve", exCurve6)], input_refs := [],
    well_id := ⟨1⟩, workspace_id := ⟨2⟩, metadata := [] }

/-- C6 witnessed on `exCtx6` with the identity standing in for `sqrt`. -/
theorem vshaleClavier_formula_witness :
    ∃ out, VShaleClavier.execute (fun q => q) exCtx6 = .ok out ∧
      out.curve_data.depths = exCurve6.depths.data ∧
      out.curve_data.values.length = exCurve6.values.length ∧
      out.curve_data.values = exCurve6.values.map (fun v => v.map (fun gr =>
        if (3.38 : ℚ) - ((gr - 30) / (100 - 30) + 0.7) ^ 2 < 0 then 1
        else clampQ ((1.7 : ℚ) -
          (fun q => q) ((3.38 : ℚ) - ((gr - 30) / (100 - 30) + 0.7) ^ 2)) 0 1)) :=
  vshaleClavier_formula (fun q => q) exCtx6 exCurve6 30 100 rfl rfl rfl (by norm_num)

/-- C2 amended, witnessed at `exOutput`: depth bounds `1` and `4`, value
bounds `10` and `20`, derived flag and provenance back-reference to record
id 7. -/
theorem registerCurve_row_stats_witness :
    (OutputWriter.registerCurveRow ⟨2⟩ "t" ⟨3⟩ exOutput "h"
      exRecord).min_depth = .real 1 ∧
    (OutputWriter.registerCurveRow ⟨2⟩ "t" ⟨3⟩ exOutput "h"
      exRecord).max_depth = .real 4 ∧
    (∃ m M,
      (OutputWriter.registerCurveRow ⟨2⟩ "t" ⟨3⟩ exOutput "h"
        exRecord).min_value = .real m ∧
      (OutputWriter.registerCurveRow ⟨2⟩ "t" ⟨3⟩ exOutput "h"
        exRecord).max_value = .real M ∧
      m ∈ exOutput.values.filterMap id ∧ M ∈ exOutput.values.filterMap id ∧
      ∀ x ∈ exOutput.values.filterMap id, m ≤ x ∧ x ≤ M) ∧
    (OutputWriter.registerCurveRow ⟨2⟩ "t" ⟨3⟩ exOutput "h"
      exRecord).source_execution_id = .text (uuidToString exRecord.id) ∧
    (OutputWriter.registerCurveRow ⟨2⟩ "t" ⟨3⟩ exOutput "h"
      exRecord).is_derived = .bool true := by
  have h := registerCurve_row_stats ⟨2⟩ "t" ⟨3⟩ exOutput "h" exRecord
  exact ⟨h.2.2.1 1 (by decide), h.2.2.2.1 4 (by decide),
    h.2.2.2.2 (by decide), h.1, h.2.1⟩

/-! ## C5: required parameters without value or default always fail -/

/-- Every error produced over the remaining definitions survives prepending
one more definition (the source pushes into one growing vector). -/
lemma validateParameters_cons_superset (parseUuid : String → Option Uuid)
    (d0 : ParameterDefinition) (rest : List ParameterDefinition)
    (values : List (String × ParameterValue)) :
    ∀ e ∈ validateParameters parseUuid rest values,
      e ∈ validateParameters parseUuid (d0 :: rest) values := by
  intro e he
  unfold validateParameters
  split
  · exact List.mem_cons_of_mem _ he
  · split
    · exact List.mem_cons_of_mem _ he
    · exact he

/-- A required definition with no default whose value is absent or Null puts
the `'{label}' is required` error at the head of the collected errors. -/
lemma validateParameters_head_required (parseUuid : String → Option Uuid)
    (d : ParameterDefinition) (rest : List ParameterDefinition)
    (values : List (String × ParameterValue))
    (hreq : d.isRequired = true) (hdef : d.defaultValue = none)
    (hval : values.lookup d.name = none ∨ values.lookup d.name = some .null) :
    validateParameters parseUuid (d :: rest) values =
      ValidationError.new d.name (requiredMsg d.label) ::
        validateParameters parseUuid rest values := by
  have hnull : ((values.lookup d.name).getD .null).isNull = true := by
    rcases hval with h | h <;> rw [h] <;> rfl
  conv_lhs => unfold validateParameters
  rw [if_pos (by rw [hnull, hreq, hdef]; rfl)]

/-- Stage 1 of C5: the collected validation errors contain one whose `field`
is the required parameter's name. -/
lemma validateParameters_required (parseUuid : String → Option Uuid) :
    ∀ (defs : List ParameterDefinition)
      (values : List (String × ParameterValue)) (d : ParameterDefinition),
    d ∈ defs → d.isRequired = true → d.defaultValue = none →
    (values.lookup d.name = none ∨ values.lookup d.name = some .null) →
    ∃ e ∈ validateParameters parseUuid defs values, e.field = d.name := by
  intro defs
  induction defs with
  | nil => intro values d hd; simp at hd
  | cons d0 rest ih =>
    intro values d hd hreq hdef hval
    rcases List.mem_cons.mp hd with rfl | hd'
    · rw [validateParameters_head_required parseUuid d rest values hreq hdef hval]
      exact ⟨_, List.mem_cons_self _ _, rfl⟩
    · obtain ⟨e, he, hef⟩ := ih values d hd' hreq hdef hval
      exact ⟨e, validateParameters_cons_superset parseUuid d0 rest values e he, hef⟩

/-- When stage-1 validation collects any error, `execute_inner` aborts with
`ParameterValidation` joining the collected errors. -/
lemma executeInner_validation_error (parseUuid : String → Option Uuid)
    (udf : Udf) (well_id workspace_id : Uuid)
    (parameters : List (String × ParameterValue)) (loader : CurveLoader)
    (h : validateParameters parseUuid udf.parameter_definitions parameters ≠ []) :
    ExecutionEngine.executeInner parseUuid udf well_id workspace_id parameters
        loader =
      .error (.ParameterValidation (joinValidationErrors
        (validateParameters parseUuid udf.parameter_definitions parameters))) := by
  have hemp : (validateParameters parseUuid udf.parameter_definitions
      parameters).isEmpty = false := by
    cases hv : validateParameters parseUuid udf.parameter_definitions parameters with
    | nil => exact absurd hv h
    | cons e es => rfl
  unfold ExecutionEngine.executeInner
  rw [if_pos (by rw [hemp]; rfl)]

/-- C5: a required parameter definition with no default, given an absent or
Null value, always yields a `ValidationError` whose `field` is that
parameter's name — in `validate_parameters` itself, in the engine's
`validate_only`, and `execute` resolves the call as a failed record. -/
theorem requiredParameter_always_fails :
    (∀ (parseUuid : String → Option Uuid) (defs : List ParameterDefinition)
      (values : List (String × ParameterValue)) (d : ParameterDefinition),
      d ∈ defs → d.isRequired = true → d.defaultValue = none →
      (values.lookup d.name = none ∨ values.lookup d.name = some .null) →
      ∃ e ∈ validateParameters parseUuid defs values, e.field = d.name) ∧
    (∀ (parseUuid : String → Option Uuid) (eng : ExecutionEngine)
      (udf_id : String) (values : List (String × ParameterValue))
      (udf : Udf) (d : ParameterDefinition) (errs : List ValidationError),
      eng.registry.getUdf udf_id = some udf →
      d ∈ udf.parameter_definitions → d.isRequired = true →
      d.defaultValue = none →
      (values.lookup d.name = none ∨ values.lookup d.name = some .null) →
      eng.validateOnly parseUuid udf_id values = .ok errs →
      ∃ e ∈ errs, e.field = d.name) ∧
    (∀ (parseUuid : String → Option Uuid) (eng : ExecutionEngine)
      (rid : Uuid) (now : Nat) (udf_id : String) (well_id workspace_id : Uuid)
      (values : List (String × ParameterValue)) (loader : CurveLoader)
      (udf : Udf) (d : ParameterDefinition),
      eng.registry.getUdf udf_id = some udf →
      d ∈ udf.parameter_definitions → d.isRequired = true →
      d.defaultValue = none →
      (values.lookup d.name = none ∨ values.lookup d.name = some .null) →
      ∃ res, eng.execute parseUuid rid now udf_id well_id workspace_id values
          loader = .ok res ∧
        res.output = none ∧ res.record.status = .Failed ∧
        res.record.error_message.isSome) := by
  refine ⟨validateParameters_required, ?_, ?_⟩
  · intro parseUuid eng udf_id values udf d errs hud hd hreq hdef hval hvo
    unfold ExecutionEngine.validateOnly at hvo
    rw [hud] at hvo
    simp only [Except.ok.injEq] at hvo
    subst hvo
    exact validateParameters_required parseUuid udf.parameter_definitions
      values d hd hreq hdef hval
  · intro parseUuid eng rid now udf_id well_id workspace_id values loader udf d
      hud hd hreq hdef hval
    have hne : validateParameters parseUuid udf.parameter_definitions values ≠ [] := by
      obtain ⟨e, he, _⟩ := validateParameters_required parseUuid
        udf.parameter_definitions values d hd hreq hdef hval
      intro hnil
      rw [hnil] at he
      simp at he
    have hinner := executeInner_validation_error parseUuid udf well_id
      workspace_id values loader hne
    unfold ExecutionEngine.execute
    rw [hud]
    dsimp only
    rw [hinner]
    exact ⟨_, rfl, rfl, rfl, rfl⟩

/-- A minimal UDF whose hooks are the trait defaults of `mod.rs` and whose
`execute` reports a fixed failure (shared by the engine-path witnesses). -/
def exUdf5 : Udf :=
  { mkSimpleUdf "needy" with
    parameter_definitions :=
      [.numeric (NumericParameter.mkRequired "threshold" "Threshold")] }

/-- An engine whose registry holds `w:needy`. -/
def exEngine5 : ExecutionEngine :=
  { registry := { providers := [], udfs := [("w:needy", exUdf5)],
                  udf_providers := [("w:needy", "w")] },
    app_version := "0.1.0" }

/-- C5 witnessed: with the parameter map empty, validation, `validate_only`
and `execute` all report the missing `threshold`. -/
theorem requiredParameter_always_fails_witness :
    (∃ e ∈ validateParameters (fun _ => none) exUdf5.parameter_definitions [],
      e.field = "threshold") ∧
    (∃ errs, exEngine5.validateOnly (fun _ => none) "w:needy" [] = .ok errs ∧
      ∃ e ∈ errs, e.field = "threshold") ∧
    (∃ res, exEngine5.execute (fun _ => none) ⟨1⟩ 0 "w:needy" ⟨2⟩ ⟨3⟩ []
        (fun _ => .error (.CurveLoadError "unavailable")) = .ok res ∧
      res.output = none ∧ res.record.status = .Failed ∧
      res.record.error_message.isSome) := by
  refine ⟨?_, ?_, ?_⟩
  · exact requiredParameter_always_fails.1 (fun _ => none)
      exUdf5.parameter_definitions [] _ (List.mem_cons_self _ _) rfl rfl
      (Or.inl rfl)
  · exact ⟨validateParameters (fun _ => none) exUdf5.parameter_definitions [],
      rfl,
      requiredParameter_always_fails.2.1 (fun _ => none) exEngine5 "w:needy"
        [] exUdf5 _ _ rfl (List.mem_cons_self _ _) rfl rfl (Or.inl rfl) rfl⟩
  · exact requiredParameter_always_fails.2.2 (fun _ => none) exEngine5 ⟨1⟩ 0
      "w:needy" ⟨2⟩ ⟨3⟩ [] (fun _ => .error (.CurveLoadError "unavailable"))
      exUdf5 _ rfl (List.mem_cons_self _ _) rfl rfl (Or.inl rfl)

/-! ## C1 and C10: the engine's caller boundary -/

/-- An engine over the empty registry. -/
def exEngineEmpty : ExecutionEngine :=
  { registry := UdfRegistry.empty, app_version := "0.1.0" }

/-- A loader with no curves (the engines under test bind none). -/
def exLoaderNone : CurveLoader :=
  fun _ => .error (.CurveLoadError "unavailable")

/-- C1 counterexample: an unresolvable `udf_id` is returned to the caller as
`Err(UdfNotFound)` — no `ExecutionRecord` is produced, contradicting the
claim that `execute` never returns a `UdfError` to the caller. -/
theorem execute_counterexample :
    exEngineEmpty.execute (fun _ => none) ⟨1⟩ 0 "core:missing" ⟨2⟩ ⟨3⟩ []
      exLoaderNone = .error (.UdfNotFound "core:missing") :=
  rfl

/-- C1 amended: whenever the `udf_id` resolves in the registry, `execute`
returns Ok with exactly one record carrying a terminal status and a
completion stamp; every stage or postprocess failure is converted into the
record's `error_message` with `output = None`, and the success path carries
the output with no error message.  Only an unresolvable `udf_id` comes back
as `Err(UdfNotFound)`. -/
theorem execute_total_record (eng : ExecutionEngine)
    (parseUuid : String → Option Uuid) (rid : Uuid) (now : Nat)
    (udf_id : String) (well_id workspace_id : Uuid)
    (parameters : List (String × ParameterValue)) (loader : CurveLoader)
    (udf : Udf) (h : eng.registry.getUdf udf_id = some udf) :
    ∃ res, eng.execute parseUuid rid now udf_id well_id workspace_id
        parameters loader = .ok res ∧
      (res.record.status = .Completed ∨ res.record.status = .Failed) ∧
      res.record.completed_at = some now ∧
      ((res.output = none ∧ res.record.status = .Failed ∧
          res.record.error_message.isSome) ∨
        (res.output.isSome ∧ res.record.status = .Completed ∧
          res.record.error_message = none)) := by
  unfold ExecutionEngine.execute
  rw [h]
  dsimp only
  cases hinner : ExecutionEngine.executeInner parseUuid udf well_id
      workspace_id parameters loader with
  | error e =>
    exact ⟨_, rfl, Or.inr rfl, rfl, Or.inl ⟨rfl, rfl, rfl⟩⟩
  | ok pair =>
    obtain ⟨context, output⟩ := pair
    dsimp only
    cases hpost : udf.postprocess output context with
    | error e =>
      exact ⟨_, rfl, Or.inr rfl, rfl, Or.inl ⟨rfl, rfl, rfl⟩⟩
    | ok output' =>
      exact ⟨_, rfl, Or.inl rfl, rfl, Or.inr ⟨rfl, rfl, rfl⟩⟩

/-- An engine holding the always-failing UDF `w:f`. -/
def exEngine1 : ExecutionEngine :=
  { registry := { providers := [], udfs := [("w:f", mkSimpleUdf "f")],
                  udf_providers := [("w:f", "w")] },
    app_version := "0.1.0" }

/-- C1 amended, witnessed on `exEngine1`. -/
theorem execute_total_record_witness :
    ∃ res, exEngine1.execute (fun _ => none) ⟨1⟩ 0 "w:f" ⟨2⟩ ⟨3⟩ []
        exLoaderNone = .ok res ∧
      (res.record.status = .Completed ∨ res.record.status = .Failed) ∧
      res.record.completed_at = some 0 ∧
      ((res.output = none ∧ res.record.status = .Failed ∧
          res.record.error_message.isSome) ∨
        (res.output.isSome ∧ res.record.status = .Completed ∧
          res.record.error_message = none)) :=
  execute_total_record exEngine1 (fun _ => none) ⟨1⟩ 0 "w:f" ⟨2⟩ ⟨3⟩ []
    exLoaderNone (mkSimpleUdf "f") rfl

/-- C10: every `execute` call that comes back with `output = None` carries a
record with status `Failed`, an empty `inputs` list, and no output curve id
or parquet hash — the accumulated `InputReference`s are copied into the
record only on the fully successful path. -/
theorem execute_failure_frame (eng : ExecutionEngine)
    (parseUuid : String → Option Uuid) (rid : Uuid) (now : Nat)
    (udf_id : String) (well_id workspace_id : Uuid)
    (parameters : List (String × ParameterValue)) (loader : CurveLoader)
    (res : ExecutionResult)
    (h : eng.execute parseUuid rid now udf_id well_id workspace_id parameters
      loader = .ok res)
    (hout : res.output = none) :
    res.record.status = .Failed ∧ res.record.inputs = [] ∧
    res.record.output_curve_id = none ∧
    res.record.output_parquet_hash = none := by
  unfold ExecutionEngine.execute at h
  cases hud : eng.registry.getUdf udf_id with
  | none =>
    rw [hud] at h
    exact absurd h (by simp)
  | some udf =>
    rw [hud] at h
    dsimp only at h
    cases hinner : ExecutionEngine.executeInner parseUuid udf well_id
        workspace_id parameters loader with
    | error e =>
      rw [hinner] at h
      simp only [Except.ok.injEq] at h
      subst h
      exact ⟨rfl, rfl, rfl, rfl⟩
    | ok pair =>
      obtain ⟨context, output⟩ := pair
      rw [hinner] at h
      dsimp only at h
      cases hpost : udf.postprocess output context with
      | error e =>
        rw [hpost] at h
        simp only [Except.ok.injEq] at h
        subst h
        exact ⟨rfl, rfl, rfl, rfl⟩
      | ok output' =>
        rw [hpost] at h
        simp only [Except.ok.injEq] at h
        subst h
        simp at hout

/-- The concrete failed result `execute` produces on `exEngine1`. -/
def exRes10 : ExecutionResult :=
  { record := { id := ⟨1⟩, udf_id := "w:f", udf_version := "1.0.0",
                inputs := [], parameters := [], output_curve_id := none,
                output_parquet_hash := none, started_at := 0,
                completed_at := some 0, compute_app_version := "0.1.0",
                status := .Failed,
                error_message :=
                  some (UdfError.ExecutionFailed "not implemented").toMessage },
    output := none }

/-- C10 witnessed: the failing run over `exEngine1` yields exactly
`exRes10`, and the theorem's conclusions hold of it. -/
theorem execute_failure_frame_witness :
    exEngine1.execute (fun _ => none) ⟨1⟩ 0 "w:f" ⟨2⟩ ⟨3⟩ [] exLoaderNone =
      .ok exRes10 ∧
    exRes10.record.status = .Failed ∧ exRes10.record.inputs = [] ∧
    exRes10.record.output_curve_id = none ∧
    exRes10.record.output_parquet_hash = none :=
  ⟨rfl, execute_failure_frame exEngine1 (fun _ => none) ⟨1⟩ 0 "w:f" ⟨2⟩ ⟨3⟩ []
    exLoaderNone exRes10 rfl rfl⟩

end DataForge
